import Mathlib

/-!
Shallow embedding of the action-RPG simulation core (ECS engine plus the
combat / monster-AI / skill / projectile / collision systems) found in
`src/systems/ECS.ts`, `src/systems/CombatComponents.ts`,
`src/systems/MonsterAISystem.ts` (which also contains `CollisionSystem` and
`PlayerCombatSystem`), `src/systems/SkillSystem.ts` and
`src/systems/ProjectileSystem.ts` (in `src/stores/gameStore.ts`).

Numbers are embedded as rationals.  The host's `Math.sqrt` (used through
`THREE.Vector3.length` / `distanceTo` / `normalize`) is irrational in
general, so it is abstracted as an explicit function parameter `s : ℚ → ℚ`;
theorems pin it down pointwise with `IsSqrtOn`, and witnesses instantiate it
with concrete functions that are exact square roots at the inputs used.
`Math.atan2` (used only for facing yaw) is abstracted the same way.
Wall-clock time (`Date.now() / 1000`) and `Math.random()` draws are passed
as explicit parameters.
-/

/-- `s` behaves as the real square root at the point `x`. -/
def IsSqrtOn (s : ℚ → ℚ) (x : ℚ) : Prop := 0 ≤ s x ∧ s x * s x = x

instance (s : ℚ → ℚ) (x : ℚ) : Decidable (IsSqrtOn s x) := by
  unfold IsSqrtOn; infer_instance

/-- `THREE.Vector3`, over ℚ. -/
structure Vec3 where
  x : ℚ
  y : ℚ
  z : ℚ
deriving DecidableEq, Repr

namespace Vec3

def add (a b : Vec3) : Vec3 := ⟨a.x + b.x, a.y + b.y, a.z + b.z⟩

/-- `new THREE.Vector3().subVectors(a, b)` / `a.clone().sub(b)`. -/
def sub (a b : Vec3) : Vec3 := ⟨a.x - b.x, a.y - b.y, a.z - b.z⟩

def scale (k : ℚ) (v : Vec3) : Vec3 := ⟨k * v.x, k * v.y, k * v.z⟩

def neg (v : Vec3) : Vec3 := ⟨-v.x, -v.y, -v.z⟩

/-- Squared length; `v.length()` is `s (normSq v)` for the host sqrt `s`. -/
def normSq (v : Vec3) : ℚ := v.x * v.x + v.y * v.y + v.z * v.z

/-- `THREE.Vector3.normalize`: `divideScalar(length() || 1)` — a zero length
falls back to dividing by 1. -/
def normalize (s : ℚ → ℚ) (v : Vec3) : Vec3 :=
  let l := s (normSq v)
  scale (1 / (if l = 0 then 1 else l)) v

end Vec3

/-- `HealthComponent` (CombatComponents.ts). -/
structure HealthComponent where
  current : ℚ
  maximum : ℚ
  regeneration : ℚ
deriving DecidableEq, Repr

/-- `CombatStatsComponent` (CombatComponents.ts). -/
structure CombatStatsComponent where
  damage : ℚ
  attackSpeed : ℚ
  attackRange : ℚ
  accuracy : ℚ
  criticalChance : ℚ
  criticalMultiplier : ℚ
deriving DecidableEq, Repr

/-- `FactionComponent` (CombatComponents.ts); faction names kept as strings
as in the source. -/
structure FactionComponent where
  faction : String
  hostile : List String
deriving DecidableEq, Repr

/-- `TransformComponent` (CombatComponents.ts).  Only the yaw component of
the `THREE.Euler` rotation is ever read or written by the logic. -/
structure TransformComponent where
  position : Vec3
  rotationY : ℚ
  scale : Vec3
deriving DecidableEq, Repr

/-- `AIComponent.state` values. -/
inductive AIState where
  | idle
  | patrol
  | chase
  | attack
  | dead
deriving DecidableEq, Repr

/-- `AIComponent` (CombatComponents.ts). -/
structure AIComponent where
  state : AIState
  target : Option String
  lastTargetPosition : Option Vec3
  aggroRange : ℚ
  attackCooldown : ℚ
  lastAttackTime : ℚ
deriving DecidableEq, Repr

/-- `MovementComponent` (CombatComponents.ts). -/
structure MovementComponent where
  velocity : Vec3
  speed : ℚ
  isMoving : Bool
  targetPosition : Option Vec3
deriving DecidableEq, Repr

/-- `ProjectileComponent.onHitEffect` values ('none' | 'explosion' |
'pierce'). -/
inductive HitEffect where
  | noneFx
  | explosion
  | pierce
deriving DecidableEq, Repr

/-- `ProjectileComponent` (ProjectileSystem.ts).  The factory
`createProjectileComponent` always supplies `effectRadius` (default 0), so
it is embedded as a plain rational; the host's truthiness tests on it become
`≠ 0` tests. -/
structure ProjectileComponent where
  damage : ℚ
  speed : ℚ
  maxRange : ℚ
  travelDistance : ℚ
  casterFaction : String
  targetPosition : Vec3
  onHitEffect : HitEffect
  effectRadius : ℚ
deriving DecidableEq, Repr

/-- `SpellEffectComponent` (ProjectileSystem.ts). -/
structure SpellEffectComponent where
  effectType : String
  duration : ℚ
  startTime : ℚ
  targetPosition : Vec3
  casterEntityId : String
deriving DecidableEq, Repr

/-- An ECS entity: its id plus the string-keyed fragment map of `ECS.ts`,
embedded as one optional field per fragment kind used by the program. -/
structure Entity where
  id : String
  transform : Option TransformComponent
  health : Option HealthComponent
  combatStats : Option CombatStatsComponent
  faction : Option FactionComponent
  ai : Option AIComponent
  movement : Option MovementComponent
  projectile : Option ProjectileComponent
  spellEffect : Option SpellEffectComponent
deriving DecidableEq, Repr

namespace Entity

/-- `Entity.destroy()` — `this.components.clear()`: every fragment is
dropped, the id (and the entity itself) remains. -/
def destroy (e : Entity) : Entity :=
  { id := e.id
    transform := none
    health := none
    combatStats := none
    faction := none
    ai := none
    movement := none
    projectile := none
    spellEffect := none }

/-- A freshly constructed entity (`new Entity(id)`): empty fragment map. -/
def blank (id : String) : Entity :=
  { id := id
    transform := none
    health := none
    combatStats := none
    faction := none
    ai := none
    movement := none
    projectile := none
    spellEffect := none }

end Entity

/-- In-place mutation of the entity object named `i`, seen through any list
aliasing it: every list slot holding that id gets the updated object. -/
def replaceById (i : String) (v : Entity) (es : List Entity) : List Entity :=
  es.map (fun e => if e.id = i then v else e)

/-- The world's `Map<EntityId, Entity>` (ECS.ts), as an insertion-ordered
association list keyed by `Entity.id`. -/
structure ECSWorld where
  entities : List Entity
deriving DecidableEq, Repr

namespace ECSWorld

/-- `Map.set` semantics: overwrite the slot if the key exists, else append. -/
def setEntity (w : ECSWorld) (e : Entity) : ECSWorld :=
  if w.entities.any (fun x => x.id = e.id) then
    ⟨replaceById e.id e w.entities⟩
  else
    ⟨w.entities ++ [e]⟩

/-- `ECSWorld.createEntity(id)`. -/
def createEntity (w : ECSWorld) (id : String) : Entity × ECSWorld :=
  let e := Entity.blank id
  (e, w.setEntity e)

/-- `ECSWorld.getEntity(id)`. -/
def getEntity (w : ECSWorld) (id : String) : Option Entity :=
  w.entities.find? (fun e => e.id = id)

/-- `ECSWorld.getAllEntities()`. -/
def getAllEntities (w : ECSWorld) : List Entity :=
  w.entities

/-- `ECSWorld.removeEntity(id)`: destroys the fragments and removes the
entity from the index. -/
def removeEntity (w : ECSWorld) (id : String) : Bool × ECSWorld :=
  match w.entities.find? (fun e => e.id = id) with
  | some _ => (true, ⟨w.entities.filter (fun e => ¬ e.id = id)⟩)
  | none => (false, w)

end ECSWorld

namespace CollisionSystem

/-- `COLLISION_RADIUS` (0.5). -/
def COLLISION_RADIUS : ℚ := 1/2

/-- `SEPARATION_FORCE` (2.0). -/
def SEPARATION_FORCE : ℚ := 2

/-- `CollisionSystem.constrainToBounds`: clamp x and z into [-9, 9] and pin
y to the ground height 0.5. -/
def constrainToBounds (t : TransformComponent) : TransformComponent :=
  { t with position :=
      ⟨max (-9) (min 9 t.position.x), 1/2, max (-9) (min 9 t.position.z)⟩ }

/-- The separation vector the code adds to entity A's position when the pair
overlaps: `direction.clone().multiplyScalar(separationDistance)` followed by
`.multiplyScalar(damping)`, with `direction` the normalized full 3D
displacement A − B. -/
def appliedSeparation (s : ℚ → ℚ) (dt : ℚ) (ta tb : TransformComponent) : Vec3 :=
  let diff := Vec3.sub ta.position tb.position
  let distance := s (Vec3.normSq diff)
  Vec3.scale (SEPARATION_FORCE * dt)
    (Vec3.scale ((COLLISION_RADIUS * 2 - distance) * (1/2))
      (Vec3.scale (1 / (if distance = 0 then 1 else distance)) diff))

/-- `CollisionSystem.resolveCollision(entityA, entityB, deltaTime)`:
the displacement between the two positions is the full 3D vector
`positionA − positionB` and `distance` is its 3D length; if
`distance < 2 × COLLISION_RADIUS` and `distance > 0`, both entities are
pushed apart along the normalized displacement by half the overlap, scaled
by `SEPARATION_FORCE × deltaTime`, and then clamped into the world bounds. -/
def resolveCollision (s : ℚ → ℚ) (dt : ℚ) (a b : Entity) : Entity × Entity :=
  match a.transform, b.transform with
  | some ta, some tb =>
    let direction := Vec3.sub ta.position tb.position
    let distance := s (Vec3.normSq direction)
    let combinedRadius := COLLISION_RADIUS * 2
    if distance < combinedRadius ∧ distance > 0 then
      let dirn := Vec3.normalize s direction
      let overlap := combinedRadius - distance
      let separationDistance := overlap * (1/2)
      let separationA := Vec3.scale separationDistance dirn
      let separationB := Vec3.scale (-separationDistance) dirn
      let damping := SEPARATION_FORCE * dt
      ({ a with transform := some (constrainToBounds
           { ta with position := Vec3.add ta.position (Vec3.scale damping separationA) }) },
       { b with transform := some (constrainToBounds
           { tb with position := Vec3.add tb.position (Vec3.scale damping separationB) }) })
    else
      (a, b)
  | _, _ => (a, b)

/-- `CollisionSystem.update`: resolve every unordered pair `(i, j)`,
`i < j`, of entities carrying a transform fragment.  The host mutates the
shared entity objects in place; here the filtered snapshot is threaded
through the pair loop by index. -/
def update (s : ℚ → ℚ) (dt : ℚ) (entities : List Entity) : List Entity :=
  let collidable := entities.filter (fun e => e.transform.isSome)
  let n := collidable.length
  let idxPairs :=
    (List.range n).flatMap (fun i =>
      ((List.range n).filter (fun j => i < j)).map (fun j => (i, j)))
  idxPairs.foldl
    (fun es (p : Nat × Nat) =>
      match es.get? p.1, es.get? p.2 with
      | some a, some b =>
        let ab := resolveCollision s dt a b
        (es.set p.1 ab.1).set p.2 ab.2
      | _, _ => es)
    collidable

/-- Modelled from the spec: the overlap test the specification describes,
comparing only the planar (horizontal) displacement — the x/z components —
against 2 × collision-radius, and pushing along the planar separation axis
by half the overlap scaled by separationForce × deltaTime.  Used solely to
compare the spec's wording with `resolveCollision` above. -/
def specPlanarResolveCollision (s : ℚ → ℚ) (dt : ℚ) (a b : Entity) : Entity × Entity :=
  match a.transform, b.transform with
  | some ta, some tb =>
    let dx := ta.position.x - tb.position.x
    let dz := ta.position.z - tb.position.z
    let distance := s (dx * dx + dz * dz)
    if distance < COLLISION_RADIUS * 2 ∧ distance > 0 then
      let overlap := COLLISION_RADIUS * 2 - distance
      let separationDistance := overlap * (1/2)
      let damping := SEPARATION_FORCE * dt
      let px := dx / distance * separationDistance * damping
      let pz := dz / distance * separationDistance * damping
      ({ a with transform := some { ta with position :=
           ⟨ta.position.x + px, ta.position.y, ta.position.z + pz⟩ } },
       { b with transform := some { tb with position :=
           ⟨tb.position.x - px, tb.position.y, tb.position.z - pz⟩ } })
    else
      (a, b)
  | _, _ => (a, b)

end CollisionSystem

/-- `SkillDefinition.type` values. -/
inductive SkillType where
  | projectile
  | area
  | selfCast
  | target
deriving DecidableEq, Repr

/-- `SkillDefinition` (SkillSystem.ts). -/
structure SkillDefinition where
  id : String
  name : String
  skillType : SkillType
  manaCost : ℚ
  cooldown : ℚ
  damage : ℚ
  range : ℚ
  effectRadius : Option ℚ
  projectileSpeed : Option ℚ
  projectileType : Option String
deriving DecidableEq, Repr

/-- The static `SKILLS` registry (SkillSystem.ts). -/
def SKILLS (id : String) : Option SkillDefinition :=
  if id = "fireball" then
    some { id := "fireball", name := "Fireball", skillType := .projectile
           manaCost := 20, cooldown := 2, damage := 35, range := 15
           effectRadius := some 3, projectileSpeed := some 8
           projectileType := some "fireball" }
  else if id = "iceShard" then
    some { id := "iceShard", name := "Ice Shard", skillType := .projectile
           manaCost := 15, cooldown := 3/2, damage := 25, range := 12
           effectRadius := none, projectileSpeed := some 12
           projectileType := some "iceShard" }
  else if id = "lightning" then
    some { id := "lightning", name := "Lightning Bolt", skillType := .projectile
           manaCost := 25, cooldown := 1, damage := 40, range := 20
           effectRadius := none, projectileSpeed := some 20
           projectileType := some "lightning" }
  else if id = "heal" then
    some { id := "heal", name := "Heal", skillType := .selfCast
           manaCost := 30, cooldown := 3, damage := -50, range := 0
           effectRadius := none, projectileSpeed := none
           projectileType := none }
  else
    none

/-- `SkillCooldown` record (SkillSystem.ts). -/
structure SkillCooldown where
  skillId : String
  lastUsedTime : ℚ
deriving DecidableEq, Repr

/-- The `skillCooldowns : Map<EntityId, SkillCooldown[]>` field of
`SkillSystem`, as an association list. -/
abbrev CooldownMap : Type := List (String × List SkillCooldown)

/-- `createTransformComponent(position)` (CombatComponents.ts) with the
default rotation and scale. -/
def createTransformComponent (position : Vec3) : TransformComponent :=
  { position := position, rotationY := 0, scale := ⟨1, 1, 1⟩ }

/-- `createProjectileComponent` (ProjectileSystem.ts). -/
def createProjectileComponent (damage speed : ℚ) (targetPosition : Vec3)
    (casterFaction : String) (maxRange : ℚ) (onHitEffect : HitEffect)
    (effectRadius : ℚ) : ProjectileComponent :=
  { damage := damage, speed := speed, maxRange := maxRange
    travelDistance := 0, casterFaction := casterFaction
    targetPosition := targetPosition, onHitEffect := onHitEffect
    effectRadius := effectRadius }

namespace SkillSystem

/-- `this.skillCooldowns.get(entityId) || []`. -/
def cooldownsFor (cds : CooldownMap) (entityId : String) : List SkillCooldown :=
  match List.find? (fun kv => kv.1 = entityId) cds with
  | some kv => kv.2
  | none => []

/-- `SkillSystem.isSkillReady(entityId, skillId)` at wall-clock time `now`.
The `SKILLS[skillId]` read on the cooldown path is only reached by
`castSkill` after the unknown-id guard, so the unknown-skill arm here (a
crash in the host) is modelled as ready. -/
def isSkillReady (cds : CooldownMap) (entityId skillId : String) (now : ℚ) : Bool :=
  match List.find? (fun cd => cd.skillId = skillId) (cooldownsFor cds entityId) with
  | none => true
  | some cd =>
    match SKILLS skillId with
    | some skill => decide (now - cd.lastUsedTime ≥ skill.cooldown)
    | none => true

/-- `SkillSystem.setSkillCooldown(entityId, skillId)` at time `now`. -/
def setSkillCooldown (cds : CooldownMap) (entityId skillId : String) (now : ℚ) :
    CooldownMap :=
  let old := cooldownsFor cds entityId
  let updated :=
    if old.any (fun cd => cd.skillId = skillId) then
      old.map (fun cd => if cd.skillId = skillId then ⟨skillId, now⟩ else cd)
    else
      old ++ [⟨skillId, now⟩]
  if (List.find? (fun kv => kv.1 = entityId) cds).isSome then
    List.map (fun kv => if kv.1 = entityId then (entityId, updated) else kv) cds
  else
    cds ++ [(entityId, updated)]

/-- `SkillSystem.createProjectile(caster, skill, targetPosition,
casterFaction)`: spawn a projectile entity at the caster position raised by
0.5, with hit effect `explosion` exactly when the skill's `effectRadius` is
truthy.  The generated id `projectile_<skillId>_<Date.now()>` is embedded
with the wall-clock parameter. -/
def createProjectile (caster : Entity) (skill : SkillDefinition)
    (targetPosition : Vec3) (casterFaction : String) (now : ℚ)
    (w : ECSWorld) : ECSWorld :=
  match caster.transform with
  | none => w
  | some t =>
    let startPosition : Vec3 := ⟨t.position.x, t.position.y + 1/2, t.position.z⟩
    let onHit : HitEffect :=
      match skill.effectRadius with
      | some r => if r = 0 then .noneFx else .explosion
      | none => .noneFx
    let speed : ℚ :=
      match skill.projectileSpeed with
      | some v => if v = 0 then 10 else v
      | none => 10
    let pc := createProjectileComponent skill.damage
      speed targetPosition casterFaction
      skill.range onHit (skill.effectRadius.getD 0)
    let pid := "projectile_" ++ skill.id ++ "_" ++ toString now
    let pe : Entity :=
      { Entity.blank pid with
          transform := some (createTransformComponent startPosition)
          projectile := some pc }
    w.setEntity pe

/-- `SkillSystem.createAreaEffect`: instantaneous AoE with linear falloff
`damage × (1 − distance / (effectRadius || 2))`, floored, applied to every
entity with a transform and a non-ally faction within the radius. -/
def createAreaEffect (s : ℚ → ℚ) (skill : SkillDefinition)
    (targetPosition : Vec3) (casterFaction : String) (es : List Entity) :
    List Entity :=
  es.map (fun e =>
    match e.transform, e.faction with
    | some t, some f =>
      if f.faction = casterFaction then e
      else
        let distance := s (Vec3.normSq (Vec3.sub t.position targetPosition))
        let radius : ℚ :=
          match skill.effectRadius with
          | some r => if r = 0 then 2 else r
          | none => 2
        if distance ≤ radius then
          let damageMultiplier := 1 - distance / radius
          let damage := Int.floor (skill.damage * damageMultiplier)
          match e.health with
          | some h => { e with health := some { h with current := h.current - damage } }
          | none => e
        else e
    | _, _ => e)

/-- `SkillSystem.applySelfEffect`: only "heal" is implemented — raise the
caster's health by |damage|, clamped to the maximum. -/
def applySelfEffect (caster : Entity) (skill : SkillDefinition) : Entity :=
  if skill.id = "heal" then
    match caster.health with
    | some h =>
      let healAmount := abs skill.damage
      let h' : HealthComponent :=
        { h with current := min (h.current + healAmount) h.maximum }
      { caster with health := some h' }
    | none => caster
  else caster

/-- `SkillSystem.applyTargetEffect`: subtract the skill damage directly. -/
def applyTargetEffect (target : Entity) (skill : SkillDefinition) : Entity :=
  match target.health with
  | some h => { target with health := some { h with current := h.current - skill.damage } }
  | none => target

/-- `SkillSystem.findEntityAtPosition`: the first entity with a transform
within 1.0 units of the position. -/
def findEntityAtPosition (s : ℚ → ℚ) (position : Vec3) (es : List Entity) :
    Option Entity :=
  es.find? (fun e =>
    match e.transform with
    | some t => decide (s (Vec3.normSq (Vec3.sub t.position position)) < 1)
    | none => false)

/-- `SkillSystem.executeSkill`: dispatch on the skill type.  The caster's
faction fragment is present on every path `castSkill` takes here.  The host
mutates entity objects shared between the snapshot list and the world;
the embedding returns the updated snapshot list and world side by side. -/
def executeSkill (s : ℚ → ℚ) (caster : Entity) (skill : SkillDefinition)
    (targetPosition : Vec3) (es : List Entity) (w : ECSWorld) (now : ℚ) :
    List Entity × ECSWorld :=
  let casterFaction :=
    match caster.faction with
    | some f => f.faction
    | none => ""
  match skill.skillType with
  | .projectile => (es, createProjectile caster skill targetPosition casterFaction now w)
  | .area => (createAreaEffect s skill targetPosition casterFaction es, w)
  | .selfCast => (replaceById caster.id (applySelfEffect caster skill) es, w)
  | .target =>
    match findEntityAtPosition s targetPosition es with
    | some tgt => (replaceById tgt.id (applyTargetEffect tgt skill) es, w)
    | none => (es, w)

/-- `SkillSystem.castSkill(casterId, skillId, targetPosition, entities)`:
guards in source order — unknown skill id, missing caster, cooldown,
missing caster fragments, out of range — then executes the skill and
(re)sets the caster-skill cooldown to `now`. -/
def castSkill (s : ℚ → ℚ) (cds : CooldownMap) (w : ECSWorld)
    (es : List Entity) (casterId skillId : String) (targetPosition : Vec3)
    (now : ℚ) : Bool × CooldownMap × ECSWorld × List Entity :=
  match SKILLS skillId with
  | none => (false, cds, w, es)
  | some skill =>
    match es.find? (fun e => e.id = casterId) with
    | none => (false, cds, w, es)
    | some caster =>
      if isSkillReady cds casterId skillId now then
        match caster.transform, caster.combatStats, caster.faction with
        | some t, some _, some _ =>
          let distance := s (Vec3.normSq (Vec3.sub t.position targetPosition))
          if distance > skill.range then (false, cds, w, es)
          else
            let ew := executeSkill s caster skill targetPosition es w now
            (true, setSkillCooldown cds casterId skillId now, ew.2, ew.1)
        | _, _, _ => (false, cds, w, es)
      else (false, cds, w, es)

end SkillSystem

namespace MonsterAISystem

/-- `MonsterAISystem.moveTowardsTarget(monster, targetPosition, deltaTime)`:
normalized direction, advance by `speed × dt`, face the target with
`atan2(dir.x, dir.z)` (the host's `Math.atan2` abstracted as `at2`).
Without a movement fragment the monster does not move. -/
def moveTowardsTarget (s : ℚ → ℚ) (at2 : ℚ → ℚ → ℚ) (dt : ℚ) (m : Entity)
    (targetPosition : Vec3) : Entity :=
  match m.transform, m.movement with
  | some t, some mv =>
    let direction := Vec3.normalize s (Vec3.sub targetPosition t.position)
    let moveDistance := mv.speed * dt
    let newPosition := Vec3.add t.position (Vec3.scale moveDistance direction)
    { m with
        transform := some { t with position := newPosition
                                   rotationY := at2 direction.x direction.z }
        movement := some { mv with isMoving := true } }
  | _, _ => m

/-- `MonsterAISystem.performAttack(monster, target)`: damage is
`max(1, floor(CombatStats.damage + random × 5))` applied to the target's
health, clamped below at 0.  `rand` is the `Math.random()` draw. -/
def performAttack (rand : ℚ) (m target : Entity) : Entity :=
  match m.combatStats, target.health with
  | some cs, some th =>
    let damage := cs.damage + rand * 5
    let finalDamage : ℤ := max 1 (Int.floor damage)
    let th' := { th with current := max 0 (th.current - (finalDamage : ℚ)) }
    { target with health := some th' }
  | _, _ => target

/-- The per-monster body of `MonsterAISystem.update` at wall-clock time
`now`: dead check first (short-circuit), hostility skip, then the state
machine; returns the updated monster and the (possibly attacked) player. -/
def monsterStep (s : ℚ → ℚ) (at2 : ℚ → ℚ → ℚ) (now dt rand : ℚ)
    (playerId : String) (m player : Entity) : Entity × Entity :=
  match player.transform with
  | none => (m, player)
  | some pt =>
    match m.ai, m.transform, m.health, m.faction with
    | some ai, some t, some h, some f =>
      if h.current ≤ 0 then
        ({ m with ai := some { ai with state := .dead } }, player)
      else if ¬ (f.hostile.contains "player") then (m, player)
      else
        let distanceToPlayer := s (Vec3.normSq (Vec3.sub t.position pt.position))
        match ai.state with
        | .idle | .patrol =>
          if distanceToPlayer ≤ ai.aggroRange then
            ({ m with ai := some { ai with state := .chase
                                           target := some playerId
                                           lastTargetPosition := some pt.position } },
             player)
          else (m, player)
        | .chase =>
          let ai1 := { ai with lastTargetPosition := some pt.position }
          let m1 := { m with ai := some ai1 }
          let ai2 := if distanceToPlayer ≤ 3/2 then { ai1 with state := .attack } else ai1
          let m2 :=
            if distanceToPlayer ≤ 3/2 then { m1 with ai := some ai2 }
            else moveTowardsTarget s at2 dt m1 pt.position
          let m3 :=
            if distanceToPlayer > ai.aggroRange * (3/2) then
              { m2 with ai := some { ai2 with state := .idle, target := none } }
            else m2
          (m3, player)
        | .attack =>
          let hit := decide (now - ai.lastAttackTime ≥ ai.attackCooldown)
          let player1 := if hit then performAttack rand m player else player
          let ai1 := if hit then { ai with lastAttackTime := now } else ai
          let ai2 := if distanceToPlayer > 2 then { ai1 with state := .chase } else ai1
          ({ m with ai := some ai2 }, player1)
        | .dead => (m, player)
    | _, _, _, _ => (m, player)

/-- A sequence of `MonsterAISystem.update` calls restricted to one monster
and the tracked player: each element of `ticks` is one call's
`(now, deltaTime, random-draw)` triple. -/
def runMonsterSteps (s : ℚ → ℚ) (at2 : ℚ → ℚ → ℚ) (playerId : String)
    (ticks : List (ℚ × ℚ × ℚ)) (mp : Entity × Entity) : Entity × Entity :=
  ticks.foldl
    (fun acc tk => monsterStep s at2 tk.1 tk.2.1 tk.2.2 playerId acc.1 acc.2)
    mp

end MonsterAISystem

namespace PlayerCombatSystem

/-- `PlayerCombatSystem.performAttack(attacker, target)` with the two
`Math.random()` draws made explicit (`racc` for the accuracy roll, `rcrit`
for the critical roll).  The target's AI is made aggressive before the
accuracy roll; a miss (`racc > accuracy`) returns with no damage; a kill
clears the selected target (modelled as the returned selection).  Returns
the updated target and the selection after the call. -/
def performAttack (playerId : String) (racc rcrit : ℚ)
    (attacker target : Entity) (sel : Option String) : Entity × Option String :=
  match attacker.combatStats, target.health with
  | some stats, some th =>
    let target1 :=
      match target.ai with
      | some ai => { target with ai := some { ai with state := .chase
                                                      target := some playerId } }
      | none => target
    if racc > stats.accuracy then (target1, sel)
    else
      let damage :=
        if rcrit < stats.criticalChance then stats.damage * stats.criticalMultiplier
        else stats.damage
      let th' := { th with current := th.current - damage }
      let target2 := { target1 with health := some th' }
      if th.current - damage ≤ 0 then (target2, none) else (target2, sel)
  | _, _ => (target, sel)

end PlayerCombatSystem

namespace ProjectileSystem

/-- The body of the `handleExplosion` loop for one entity: alive entities
with transform/health/faction outside the caster's faction and within
`effectRadius` of the impact point lose
`floor(damage × 0.7 × (1 − distance / effectRadius))` health. -/
def explodeEntity (s : ℚ → ℚ) (position : Vec3) (pc : ProjectileComponent)
    (e : Entity) : Entity :=
  match e.transform, e.health, e.faction with
  | some t, some h, some f =>
    if h.current ≤ 0 then e
    else if f.faction = pc.casterFaction then e
    else
      let distance := s (Vec3.normSq (Vec3.sub t.position position))
      if distance ≤ pc.effectRadius then
        let damageMultiplier := 1 - distance / pc.effectRadius
        let explosionDamage : ℤ := Int.floor (pc.damage * (7/10) * damageMultiplier)
        let h' := { h with current := h.current - (explosionDamage : ℚ) }
        { e with health := some h' }
      else e
  | _, _, _ => e

/-- `ProjectileSystem.handleExplosion(position, projectileComp,
allEntities)`. -/
def handleExplosion (s : ℚ → ℚ) (position : Vec3) (pc : ProjectileComponent)
    (es : List Entity) : List Entity :=
  es.map (explodeEntity s position pc)

/-- `ProjectileSystem.checkCollisions(projectile, allEntities)`: the first
entity in iteration order, other than the projectile itself, that has
transform/health/faction fragments, is alive, is outside the caster's
faction, and is within the 0.8 hit radius of the projectile. -/
def checkCollisions (s : ℚ → ℚ) (p : Entity) (es : List Entity) : Option Entity :=
  match p.projectile, p.transform with
  | some pc, some pt =>
    es.find? (fun e =>
      if e.id = p.id then false
      else
        match e.transform, e.health, e.faction with
        | some et, some eh, some ef =>
          if eh.current ≤ 0 then false
          else if ef.faction = pc.casterFaction then false
          else decide (s (Vec3.normSq (Vec3.sub pt.position et.position)) < 4/5)
        | _, _, _ => false)
  | _, _ => none

/-- The motion step at the head of `updateProjectile`: advance the position
by `speed × dt` toward the target and accumulate `travelDistance`. -/
def movedProjectile (s : ℚ → ℚ) (dt : ℚ) (p : Entity) : Entity :=
  match p.projectile, p.transform with
  | some pc, some t =>
    let direction := Vec3.normalize s (Vec3.sub pc.targetPosition t.position)
    let moveDistance := pc.speed * dt
    let newPosition := Vec3.add t.position (Vec3.scale moveDistance direction)
    { p with
        transform := some { t with position := newPosition }
        projectile := some { pc with travelDistance := pc.travelDistance + moveDistance } }
  | _, _ => p

/-- `ProjectileSystem.handleProjectileHit(projectile, target, allEntities)`:
direct damage to the target, then (for `explosion` with a truthy
`effectRadius`) the falloff AoE over all entities at the impact point, then
the projectile destroys itself unless it pierces. -/
def handleProjectileHit (s : ℚ → ℚ) (p target : Entity) (es : List Entity) :
    List Entity :=
  match p.projectile, p.transform, target.health with
  | some pc, some pt, some th =>
    let th' := { th with current := th.current - pc.damage }
    let target' := { target with health := some th' }
    let es1 := replaceById target.id target' es
    let es2 :=
      if pc.onHitEffect = HitEffect.explosion ∧ pc.effectRadius ≠ 0 then
        handleExplosion s pt.position pc es1
      else es1
    if pc.onHitEffect ≠ HitEffect.pierce then
      replaceById p.id (Entity.destroy p) es2
    else es2
  | _, _, _ => es

/-- `ProjectileSystem.updateProjectile(projectile, entities, deltaTime)`:
move, then hit handling, else expiry once within 0.5 of the target position
or `travelDistance ≥ maxRange`. -/
def updateProjectile (s : ℚ → ℚ) (dt : ℚ) (p : Entity) (es : List Entity) :
    List Entity :=
  match p.projectile, p.transform with
  | some _, some _ =>
    let p1 := movedProjectile s dt p
    let es1 := replaceById p.id p1 es
    match checkCollisions s p1 es1 with
    | some target => handleProjectileHit s p1 target es1
    | none =>
      match p1.projectile, p1.transform with
      | some pc1, some t1 =>
        let distanceToTarget := s (Vec3.normSq (Vec3.sub t1.position pc1.targetPosition))
        if distanceToTarget < 1/2 ∨ pc1.travelDistance ≥ pc1.maxRange then
          replaceById p.id (Entity.destroy p1) es1
        else es1
      | _, _ => es1
  | _, _ => es

/-- The body of the spell-effect pass for one entity: any entity with a
spell-effect fragment is destroyed once `now − startTime ≥ duration`. -/
def expireSpellEffect (now : ℚ) (e : Entity) : Entity :=
  match e.spellEffect with
  | some se => if now - se.startTime ≥ se.duration then Entity.destroy e else e
  | none => e

/-- `ProjectileSystem.update(entities, deltaTime)` acting on the world's
entity list: pass 1 runs `updateProjectile` for every entity that carried
projectile and transform fragments when the pass started (looked up again
by id, as the host holds object references); pass 2 expires spell
effects. -/
def update (s : ℚ → ℚ) (dt now : ℚ) (es : List Entity) : List Entity :=
  let pids :=
    (es.filter (fun e => e.projectile.isSome && e.transform.isSome)).map Entity.id
  let afterProjectiles :=
    pids.foldl
      (fun acc pid =>
        match acc.find? (fun e => e.id = pid) with
        | some p => updateProjectile s dt p acc
        | none => acc)
      es
  afterProjectiles.map (expireSpellEffect now)

/-- The projectile system's tick over the whole world. -/
def updateWorld (s : ℚ → ℚ) (dt now : ℚ) (w : ECSWorld) : ECSWorld :=
  ⟨update s dt now w.entities⟩

end ProjectileSystem

/-! ## Theorems -/

/-- C8: when two entities with transform fragments occupy exactly the same
position, the collision system skips the pair: no separation displacement is
applied to either entity and both are returned unchanged (the `distance > 0`
guard fails, so the division by the distance is never reached). -/
theorem resolveCollision_zero_distance_skips (s : ℚ → ℚ) (dt : ℚ)
    (a b : Entity) (ta tb : TransformComponent)
    (hta : a.transform = some ta) (htb : b.transform = some tb)
    (hpos : ta.position = tb.position) (hs : IsSqrtOn s 0) :
    CollisionSystem.resolveCollision s dt a b = (a, b) := by
  have h0 : s 0 = 0 := mul_self_eq_zero.mp hs.2
  have hz : Vec3.normSq (Vec3.sub ta.position tb.position) = 0 := by
    rw [hpos]; simp [Vec3.sub, Vec3.normSq]
  unfold CollisionSystem.resolveCollision
  rw [hta, htb]
  simp only [hz, h0]
  norm_num

/-- C8 witness: two coincident entities at the origin are returned
unchanged. -/
theorem resolveCollision_zero_distance_skips_witness :
    ({ Entity.blank "wa" with
         transform := some (createTransformComponent ⟨0, 0, 0⟩) } : Entity).transform
      = some (createTransformComponent ⟨0, 0, 0⟩) ∧
    IsSqrtOn (fun _ => 0) 0 ∧
    CollisionSystem.resolveCollision (fun _ => 0) 1
      { Entity.blank "wa" with transform := some (createTransformComponent ⟨0, 0, 0⟩) }
      { Entity.blank "wb" with transform := some (createTransformComponent ⟨0, 0, 0⟩) }
      = ({ Entity.blank "wa" with transform := some (createTransformComponent ⟨0, 0, 0⟩) },
         { Entity.blank "wb" with transform := some (createTransformComponent ⟨0, 0, 0⟩) }) :=
  ⟨rfl, ⟨le_refl 0, by norm_num⟩,
   resolveCollision_zero_distance_skips (fun _ => 0) 1 _ _
     (createTransformComponent ⟨0, 0, 0⟩) (createTransformComponent ⟨0, 0, 0⟩)
     rfl rfl rfl ⟨le_refl 0, by norm_num⟩⟩

/-- Record-update helper: the entity with its transform fragment replaced. -/
def Entity.withTransform (e : Entity) (t : TransformComponent) : Entity :=
  { e with transform := some t }

/-- Record-update helper: the transform with its position replaced. -/
def TransformComponent.withPosition (t : TransformComponent) (p : Vec3) :
    TransformComponent :=
  { t with position := p }

theorem Vec3.scale_neg_inner (k c : ℚ) (v : Vec3) :
    Vec3.scale k (Vec3.scale (-c) v) = Vec3.neg (Vec3.scale k (Vec3.scale c v)) := by
  simp only [Vec3.scale, Vec3.neg, Vec3.mk.injEq]
  refine ⟨by ring, by ring, by ring⟩

/-- C5: when a pair overlaps, the separation displacement applied to A (up
to the final bounds clamp) is the exact negation of the displacement
applied to B. -/
theorem resolveCollision_symmetric (s : ℚ → ℚ) (dt : ℚ) (a b : Entity)
    (ta tb : TransformComponent)
    (hta : a.transform = some ta) (htb : b.transform = some tb)
    (hs : IsSqrtOn s (Vec3.normSq (Vec3.sub ta.position tb.position)))
    (hlt : s (Vec3.normSq (Vec3.sub ta.position tb.position)) <
      CollisionSystem.COLLISION_RADIUS * 2)
    (hgt : 0 < s (Vec3.normSq (Vec3.sub ta.position tb.position))) :
    ∃ v : Vec3,
      CollisionSystem.resolveCollision s dt a b =
        ({ a with transform := some (CollisionSystem.constrainToBounds
             { ta with position := Vec3.add ta.position v }) },
         { b with transform := some (CollisionSystem.constrainToBounds
             { tb with position := Vec3.add tb.position (Vec3.neg v) }) }) := by
  refine ⟨CollisionSystem.appliedSeparation s dt ta tb, ?_⟩
  unfold CollisionSystem.resolveCollision CollisionSystem.appliedSeparation
    Vec3.normalize
  rw [hta, htb]
  simp only [if_pos (And.intro hlt hgt)]
  rw [Vec3.scale_neg_inner]

/-- C5 witness: entities half a unit apart on the z axis overlap and get
equal-and-opposite pushes. -/
theorem resolveCollision_symmetric_witness :
    IsSqrtOn (fun q => if q = 1/4 then 1/2 else 0)
      (Vec3.normSq (Vec3.sub (⟨0, 0, 0⟩ : Vec3) ⟨0, 0, 1/2⟩)) ∧
    ((fun q => if q = 1/4 then 1/2 else (0:ℚ))
        (Vec3.normSq (Vec3.sub (⟨0, 0, 0⟩ : Vec3) ⟨0, 0, 1/2⟩)) <
      CollisionSystem.COLLISION_RADIUS * 2) ∧
    ∃ v : Vec3,
      CollisionSystem.resolveCollision (fun q => if q = 1/4 then 1/2 else 0) 1
        { Entity.blank "w5a" with transform := some (createTransformComponent ⟨0, 0, 0⟩) }
        { Entity.blank "w5b" with transform := some (createTransformComponent ⟨0, 0, 1/2⟩) } =
        ({ { Entity.blank "w5a" with
              transform := some (createTransformComponent ⟨0, 0, 0⟩) } with
            transform := some (CollisionSystem.constrainToBounds
              { createTransformComponent ⟨0, 0, 0⟩ with
                  position := Vec3.add (⟨0, 0, 0⟩ : Vec3) v }) },
         { { Entity.blank "w5b" with
              transform := some (createTransformComponent ⟨0, 0, 1/2⟩) } with
            transform := some (CollisionSystem.constrainToBounds
              { createTransformComponent ⟨0, 0, 1/2⟩ with
                  position := Vec3.add (⟨0, 0, 1/2⟩ : Vec3) (Vec3.neg v) }) }) :=
  ⟨by refine ⟨?_, ?_⟩ <;> norm_num [Vec3.sub, Vec3.normSq],
   by norm_num [Vec3.sub, Vec3.normSq, CollisionSystem.COLLISION_RADIUS],
   resolveCollision_symmetric (fun q => if q = 1/4 then 1/2 else 0) 1 _ _
     (createTransformComponent ⟨0, 0, 0⟩) (createTransformComponent ⟨0, 0, 1/2⟩)
     rfl rfl
     (by refine ⟨?_, ?_⟩ <;>
       norm_num [Vec3.sub, Vec3.normSq, createTransformComponent])
     (by norm_num [Vec3.sub, Vec3.normSq, createTransformComponent,
       CollisionSystem.COLLISION_RADIUS])
     (by norm_num [Vec3.sub, Vec3.normSq, createTransformComponent])⟩

/-- C2 (amended): the collision pair test compares the FULL 3D displacement
length between the positions — not only its planar part — against
2 × collision-radius; when `0 < distance < 2 × radius` both entities are
pushed apart along the (3D) separation axis by half the overlap scaled by
`separationForce × deltaTime` (and then clamped to the world bounds), and
otherwise the pair is left unchanged. -/
theorem resolveCollision_uses_3d_distance (s : ℚ → ℚ) (dt : ℚ) (a b : Entity)
    (ta tb : TransformComponent)
    (hta : a.transform = some ta) (htb : b.transform = some tb)
    (hs : IsSqrtOn s (Vec3.normSq (Vec3.sub ta.position tb.position))) :
    (¬ (s (Vec3.normSq (Vec3.sub ta.position tb.position)) <
          CollisionSystem.COLLISION_RADIUS * 2 ∧
        0 < s (Vec3.normSq (Vec3.sub ta.position tb.position))) →
      CollisionSystem.resolveCollision s dt a b = (a, b)) ∧
    ((s (Vec3.normSq (Vec3.sub ta.position tb.position)) <
          CollisionSystem.COLLISION_RADIUS * 2 ∧
        0 < s (Vec3.normSq (Vec3.sub ta.position tb.position))) →
      CollisionSystem.resolveCollision s dt a b =
        (a.withTransform (CollisionSystem.constrainToBounds
           (ta.withPosition (Vec3.add ta.position
             (CollisionSystem.appliedSeparation s dt ta tb)))),
         b.withTransform (CollisionSystem.constrainToBounds
           (tb.withPosition (Vec3.add tb.position
             (Vec3.neg (CollisionSystem.appliedSeparation s dt ta tb))))))) := by
  constructor
  · intro hno
    unfold CollisionSystem.resolveCollision
    rw [hta, htb]
    simp only [if_neg hno]
  · intro hyes
    unfold CollisionSystem.resolveCollision CollisionSystem.appliedSeparation
      Vec3.normalize Entity.withTransform TransformComponent.withPosition
    rw [hta, htb]
    simp only [if_pos hyes]
    rw [Vec3.scale_neg_inner]

/-- C2 witness: an overlapping pair half a unit apart on the x axis takes
the then-branch; the same statement's else-branch is exercised vacuously. -/
theorem resolveCollision_uses_3d_distance_witness :
    IsSqrtOn (fun q => if q = 1/4 then 1/2 else 0)
      (Vec3.normSq (Vec3.sub (⟨0, 0, 0⟩ : Vec3) ⟨1/2, 0, 0⟩)) ∧
    ((¬ ((fun q => if q = 1/4 then 1/2 else (0:ℚ))
            (Vec3.normSq (Vec3.sub
              ((createTransformComponent ⟨0, 0, 0⟩).position) ((createTransformComponent ⟨1/2, 0, 0⟩).position))) <
          CollisionSystem.COLLISION_RADIUS * 2 ∧
        0 < (fun q => if q = 1/4 then 1/2 else (0:ℚ))
            (Vec3.normSq (Vec3.sub
              ((createTransformComponent ⟨0, 0, 0⟩).position) ((createTransformComponent ⟨1/2, 0, 0⟩).position)))) →
      CollisionSystem.resolveCollision (fun q => if q = 1/4 then 1/2 else 0) 1
        { Entity.blank "w2a" with transform := some (createTransformComponent ⟨0, 0, 0⟩) }
        { Entity.blank "w2b" with transform := some (createTransformComponent ⟨1/2, 0, 0⟩) } =
        ({ Entity.blank "w2a" with transform := some (createTransformComponent ⟨0, 0, 0⟩) },
         { Entity.blank "w2b" with transform := some (createTransformComponent ⟨1/2, 0, 0⟩) })) ∧
    (((fun q => if q = 1/4 then 1/2 else (0:ℚ))
            (Vec3.normSq (Vec3.sub
              ((createTransformComponent ⟨0, 0, 0⟩).position) ((createTransformComponent ⟨1/2, 0, 0⟩).position))) <
          CollisionSystem.COLLISION_RADIUS * 2 ∧
        0 < (fun q => if q = 1/4 then 1/2 else (0:ℚ))
            (Vec3.normSq (Vec3.sub
              ((createTransformComponent ⟨0, 0, 0⟩).position) ((createTransformComponent ⟨1/2, 0, 0⟩).position)))) →
      CollisionSystem.resolveCollision (fun q => if q = 1/4 then 1/2 else 0) 1
        { Entity.blank "w2a" with transform := some (createTransformComponent ⟨0, 0, 0⟩) }
        { Entity.blank "w2b" with transform := some (createTransformComponent ⟨1/2, 0, 0⟩) } =
        (Entity.withTransform
           { Entity.blank "w2a" with transform := some (createTransformComponent ⟨0, 0, 0⟩) }
           (CollisionSystem.constrainToBounds
             (TransformComponent.withPosition (createTransformComponent ⟨0, 0, 0⟩)
               (Vec3.add ((createTransformComponent ⟨0, 0, 0⟩).position)
                 (CollisionSystem.appliedSeparation (fun q => if q = 1/4 then 1/2 else 0) 1
                   (createTransformComponent ⟨0, 0, 0⟩) (createTransformComponent ⟨1/2, 0, 0⟩))))),
         Entity.withTransform
           { Entity.blank "w2b" with transform := some (createTransformComponent ⟨1/2, 0, 0⟩) }
           (CollisionSystem.constrainToBounds
             (TransformComponent.withPosition (createTransformComponent ⟨1/2, 0, 0⟩)
               (Vec3.add ((createTransformComponent ⟨1/2, 0, 0⟩).position)
                 (Vec3.neg (CollisionSystem.appliedSeparation (fun q => if q = 1/4 then 1/2 else 0) 1
                   (createTransformComponent ⟨0, 0, 0⟩) (createTransformComponent ⟨1/2, 0, 0⟩))))))))) :=
  ⟨by refine ⟨?_, ?_⟩ <;> norm_num [Vec3.sub, Vec3.normSq],
   resolveCollision_uses_3d_distance (fun q => if q = 1/4 then 1/2 else 0) 1 _ _
     (createTransformComponent ⟨0, 0, 0⟩) (createTransformComponent ⟨1/2, 0, 0⟩)
     rfl rfl
     (by refine ⟨?_, ?_⟩ <;>
       norm_num [Vec3.sub, Vec3.normSq, createTransformComponent])⟩

/-- The entity "ceA" of the C2 counterexample: at the origin. -/
def ceA : Entity :=
  { Entity.blank "ceA" with transform := some (createTransformComponent ⟨0, 0, 0⟩) }

/-- The entity "ceB" of the C2 counterexample: planar offset 3/5 (x), plus a
vertical offset 4/5 (y), so the full 3D distance is exactly 1. -/
def ceB : Entity :=
  { Entity.blank "ceB" with transform := some (createTransformComponent ⟨3/5, 4/5, 0⟩) }

/-- A concrete sqrt valid at both the planar squared distance 9/25 and the
3D squared distance 1 of the `ceA`/`ceB` pair. -/
def ceSqrt : ℚ → ℚ :=
  fun q => if q = 9/25 then 3/5 else if q = 1 then 1 else 0

/-- C2 counterexample: for the pair `ceA`/`ceB` the planar distance is 3/5
(< 2 × radius = 1), so the claimed planar test would push the pair apart —
the spec-modelled planar resolution moves them — but the code's test uses
the full 3D distance 1, fails `distance < 1`, and leaves the pair exactly
unchanged. -/
theorem resolveCollision_planar_claim_false :
    IsSqrtOn ceSqrt (9/25) ∧ IsSqrtOn ceSqrt 1 ∧
    CollisionSystem.resolveCollision ceSqrt 1 ceA ceB = (ceA, ceB) ∧
    CollisionSystem.specPlanarResolveCollision ceSqrt 1 ceA ceB ≠ (ceA, ceB) := by
  refine ⟨⟨by norm_num [ceSqrt], by norm_num [ceSqrt]⟩,
          ⟨by norm_num [ceSqrt], by norm_num [ceSqrt]⟩, ?_, ?_⟩
  · unfold CollisionSystem.resolveCollision
    norm_num [ceA, ceB, ceSqrt, createTransformComponent, Entity.blank,
      Vec3.sub, Vec3.normSq, CollisionSystem.COLLISION_RADIUS]
  · unfold CollisionSystem.specPlanarResolveCollision
    norm_num [ceA, ceB, ceSqrt, createTransformComponent, Entity.blank,
      Vec3.sub, Vec3.normSq, CollisionSystem.COLLISION_RADIUS,
      CollisionSystem.SEPARATION_FORCE, Prod.ext_iff]

/-- C1: any of the five rejection conditions — unknown skill id, absent
caster, caster missing one of the transform/combatStats/faction fragments,
caster-skill cooldown not yet elapsed, or target out of range — makes
`castSkill` return false with the cooldown map, the world (no projectile
spawned) and the entity list (no health touched) all unchanged. -/
theorem castSkill_rejection_leaves_state_unchanged (s : ℚ → ℚ)
    (cds : CooldownMap) (w : ECSWorld) (es : List Entity)
    (casterId skillId : String) (targetPos : Vec3) (now : ℚ)
    (h : SKILLS skillId = none
      ∨ es.find? (fun e => e.id = casterId) = none
      ∨ (∃ c, es.find? (fun e => e.id = casterId) = some c ∧
           (c.transform = none ∨ c.combatStats = none ∨ c.faction = none))
      ∨ SkillSystem.isSkillReady cds casterId skillId now = false
      ∨ (∃ c t sk, es.find? (fun e => e.id = casterId) = some c ∧
           c.transform = some t ∧ SKILLS skillId = some sk ∧
           IsSqrtOn s (Vec3.normSq (Vec3.sub t.position targetPos)) ∧
           s (Vec3.normSq (Vec3.sub t.position targetPos)) > sk.range)) :
    SkillSystem.castSkill s cds w es casterId skillId targetPos now =
      (false, cds, w, es) := by
  unfold SkillSystem.castSkill
  cases hsk : SKILLS skillId with
  | none => rfl
  | some sk =>
    cases hfind : es.find? (fun e => e.id = casterId) with
    | none => rfl
    | some c =>
      cases hready : SkillSystem.isSkillReady cds casterId skillId now with
      | false => simp only [Bool.false_eq_true, if_false]
      | true =>
        simp only [if_true]
        cases hct : c.transform with
        | none => rfl
        | some t =>
          cases hcs : c.combatStats with
          | none => rfl
          | some cstats =>
            cases hcf : c.faction with
            | none => rfl
            | some f =>
              rcases h with h | h | ⟨c', hc', hcomp⟩ | h | ⟨c', t', sk', hc', ht', hsk', _, hrange⟩
              · rw [hsk] at h; cases h
              · rw [hfind] at h; cases h
              · rw [hfind] at hc'
                injection hc' with hc'
                subst hc'
                rcases hcomp with hcomp | hcomp | hcomp
                · rw [hct] at hcomp; cases hcomp
                · rw [hcs] at hcomp; cases hcomp
                · rw [hcf] at hcomp; cases hcomp
              · rw [hready] at h; cases h
              · rw [hfind] at hc'
                injection hc' with hc'
                subst hc'
                rw [hct] at ht'
                injection ht' with ht'
                subst ht'
                rw [hsk] at hsk'
                injection hsk' with hsk'
                subst hsk'
                simp only [if_pos hrange]

/-- C1 witness: with an empty entity list the caster is absent, so casting
"fireball" is rejected and nothing changes. -/
theorem castSkill_rejection_leaves_state_unchanged_witness :
    (List.find? (fun e => e.id = "player_entity") ([] : List Entity) = none) ∧
    SkillSystem.castSkill (fun _ => 0) [] ⟨[]⟩ [] "player_entity" "fireball"
      ⟨0, 0, 0⟩ 0 = (false, [], ⟨[]⟩, []) :=
  ⟨rfl,
   castSkill_rejection_leaves_state_unchanged (fun _ => 0) [] ⟨[]⟩ []
     "player_entity" "fireball" ⟨0, 0, 0⟩ 0 (Or.inr (Or.inl rfl))⟩

/-- C3: in the explosion pass, an alive entity with transform/health/faction
fragments, outside the caster's faction, at distance d ≤ effectRadius r
from the impact point loses exactly `floor(damage × 0.7 × (1 − d/r))`
health; at d = r the loss is 0; and `handleExplosion` applies exactly this
per-entity step to every entity of the list. -/
theorem explosion_falloff (s : ℚ → ℚ) (impact : Vec3)
    (pc : ProjectileComponent) (e : Entity) (t : TransformComponent)
    (h : HealthComponent) (f : FactionComponent)
    (ht : e.transform = some t) (hh : e.health = some h) (hf : e.faction = some f)
    (halive : 0 < h.current) (hfac : ¬ f.faction = pc.casterFaction)
    (hr : pc.effectRadius ≠ 0)
    (hs : IsSqrtOn s (Vec3.normSq (Vec3.sub t.position impact)))
    (hd : s (Vec3.normSq (Vec3.sub t.position impact)) ≤ pc.effectRadius) :
    (ProjectileSystem.explodeEntity s impact pc e).health =
      some { h with current := h.current -
        ((Int.floor (pc.damage * (7/10) *
          (1 - s (Vec3.normSq (Vec3.sub t.position impact)) / pc.effectRadius)) : ℤ) : ℚ) } ∧
    (s (Vec3.normSq (Vec3.sub t.position impact)) = pc.effectRadius →
      (ProjectileSystem.explodeEntity s impact pc e).health = some h) ∧
    (∀ es : List Entity, ProjectileSystem.handleExplosion s impact pc es =
      es.map (ProjectileSystem.explodeEntity s impact pc)) := by
  have hmain : (ProjectileSystem.explodeEntity s impact pc e).health =
      some { h with current := h.current -
        ((Int.floor (pc.damage * (7/10) *
          (1 - s (Vec3.normSq (Vec3.sub t.position impact)) / pc.effectRadius)) : ℤ) : ℚ) } := by
    unfold ProjectileSystem.explodeEntity
    rw [ht, hh, hf]
    simp only [if_neg (not_le.mpr halive), if_neg hfac, if_pos hd]
  refine ⟨hmain, ?_, fun _ => rfl⟩
  intro hdr
  rw [hmain, hdr]
  have : (1 : ℚ) - pc.effectRadius / pc.effectRadius = 0 := by
    rw [div_self hr]; ring
  rw [this]
  norm_num

/-- C3 witness: a 35-damage explosion of radius 3 hits an enemy at distance
1 from the impact point for `floor(35 × 0.7 × (1 − 1/3)) = 16`. -/
theorem explosion_falloff_witness :
    (0 : ℚ) < 50 ∧
    ¬ ("enemy" : String) = "player" ∧
    (ProjectileSystem.explodeEntity (fun q => if q = 1 then 1 else 0) ⟨0, 0, 0⟩
      { damage := 35, speed := 8, maxRange := 15, travelDistance := 0
        casterFaction := "player", targetPosition := ⟨0, 0, 0⟩
        onHitEffect := .explosion, effectRadius := 3 }
      { Entity.blank "m" with
          transform := some (createTransformComponent ⟨1, 0, 0⟩)
          health := some { current := 50, maximum := 50, regeneration := 1 }
          faction := some { faction := "enemy", hostile := ["player"] } }).health =
      some { current := 50 -
                          ((Int.floor ((35 : ℚ) * (7/10) *
                            (1 - (fun q => if q = (1:ℚ) then (1:ℚ) else 0)
                              (Vec3.normSq (Vec3.sub (⟨1, 0, 0⟩ : Vec3) ⟨0, 0, 0⟩)) / 3)) : ℤ) : ℚ)
             maximum := 50, regeneration := 1 } :=
  ⟨by norm_num, by simp,
   (explosion_falloff (fun q => if q = 1 then 1 else 0) ⟨0, 0, 0⟩
     { damage := 35, speed := 8, maxRange := 15, travelDistance := 0
       casterFaction := "player", targetPosition := ⟨0, 0, 0⟩
       onHitEffect := .explosion, effectRadius := 3 }
     { Entity.blank "m" with
         transform := some (createTransformComponent ⟨1, 0, 0⟩)
         health := some { current := 50, maximum := 50, regeneration := 1 }
         faction := some { faction := "enemy", hostile := ["player"] } }
     (createTransformComponent ⟨1, 0, 0⟩)
     { current := 50, maximum := 50, regeneration := 1 }
     { faction := "enemy", hostile := ["player"] }
     rfl rfl rfl (by norm_num) (by simp) (by norm_num)
     (by refine ⟨?_, ?_⟩ <;>
       norm_num [Vec3.sub, Vec3.normSq, createTransformComponent])
     (by norm_num [Vec3.sub, Vec3.normSq, createTransformComponent])).1⟩

/-- C10: the player's attack resolution marks the target's AI as chasing
the player before the accuracy roll, so even a missed attack (which deals
no damage and leaves the selection unchanged) aggroes the target. -/
theorem playerAttack_aggro_precedes_accuracy_roll (pid : String)
    (racc rcrit : ℚ) (attacker target : Entity) (sel : Option String)
    (stats : CombatStatsComponent) (th : HealthComponent) (ai : AIComponent)
    (hcs : attacker.combatStats = some stats) (hh : target.health = some th)
    (hai : target.ai = some ai) :
    ((PlayerCombatSystem.performAttack pid racc rcrit attacker target sel).1).ai =
      some { ai with state := .chase, target := some pid } ∧
    (racc > stats.accuracy →
      ((PlayerCombatSystem.performAttack pid racc rcrit attacker target sel).1).health =
        some th ∧
      (PlayerCombatSystem.performAttack pid racc rcrit attacker target sel).2 = sel) := by
  unfold PlayerCombatSystem.performAttack
  rw [hcs, hh, hai]
  dsimp only
  constructor
  · split_ifs <;> rfl
  · intro hmiss
    rw [if_pos hmiss]
    exact ⟨rfl, rfl⟩

/-- C10 witness: a guaranteed miss (roll 19/20 against accuracy 9/10) still
turns the target's AI to chase with the player as target. -/
theorem playerAttack_aggro_precedes_accuracy_roll_witness :
    (({ Entity.blank "m" with
          health := some { current := 50, maximum := 50, regeneration := 1 }
          ai := some { state := .idle, target := none, lastTargetPosition := none
                       aggroRange := 5, attackCooldown := 1, lastAttackTime := 0 } } : Entity).health
      = some { current := 50, maximum := 50, regeneration := 1 }) ∧
    ((PlayerCombatSystem.performAttack "player_entity" (19/20) (1/2)
        { Entity.blank "p" with
            combatStats := some { damage := 10, attackSpeed := 1, attackRange := 3/2
                                  accuracy := 9/10, criticalChance := 1/20
                                  criticalMultiplier := 3/2 } }
        { Entity.blank "m" with
            health := some { current := 50, maximum := 50, regeneration := 1 }
            ai := some { state := .idle, target := none, lastTargetPosition := none
                         aggroRange := 5, attackCooldown := 1, lastAttackTime := 0 } }
        (some "m")).1).ai =
      some { state := .chase, target := some "player_entity", lastTargetPosition := none
             aggroRange := 5, attackCooldown := 1, lastAttackTime := 0 } :=
  ⟨rfl,
   (playerAttack_aggro_precedes_accuracy_roll "player_entity" (19/20) (1/2)
     { Entity.blank "p" with
         combatStats := some { damage := 10, attackSpeed := 1, attackRange := 3/2
                               accuracy := 9/10, criticalChance := 1/20
                               criticalMultiplier := 3/2 } }
     { Entity.blank "m" with
         health := some { current := 50, maximum := 50, regeneration := 1 }
         ai := some { state := .idle, target := none, lastTargetPosition := none
                      aggroRange := 5, attackCooldown := 1, lastAttackTime := 0 } }
     (some "m")
     { damage := 10, attackSpeed := 1, attackRange := 3/2, accuracy := 9/10
       criticalChance := 1/20, criticalMultiplier := 3/2 }
     { current := 50, maximum := 50, regeneration := 1 }
     { state := .idle, target := none, lastTargetPosition := none
       aggroRange := 5, attackCooldown := 1, lastAttackTime := 0 }
     rfl rfl rfl).1⟩

/-- C7: an alive, player-hostile, fragment-complete monster in idle (or
patrol) with the tracked player present transitions to chase — targeting
the player — within one update when the distance to the player is at most
`aggroRange`, and is left completely unchanged by any number of updates
when the distance exceeds `aggroRange`. -/
theorem monster_idle_aggro_range (s : ℚ → ℚ) (at2 : ℚ → ℚ → ℚ)
    (now dt rand : ℚ) (pid : String) (m player : Entity)
    (ai : AIComponent) (t : TransformComponent) (h : HealthComponent)
    (f : FactionComponent) (pt : TransformComponent)
    (hai : m.ai = some ai) (ht : m.transform = some t)
    (hh : m.health = some h) (hf : m.faction = some f)
    (hpt : player.transform = some pt)
    (halive : 0 < h.current) (hhost : f.hostile.contains "player" = true)
    (hstate : ai.state = .idle ∨ ai.state = .patrol)
    (hs : IsSqrtOn s (Vec3.normSq (Vec3.sub t.position pt.position))) :
    (s (Vec3.normSq (Vec3.sub t.position pt.position)) ≤ ai.aggroRange →
      MonsterAISystem.monsterStep s at2 now dt rand pid m player =
        ({ m with ai := some { ai with state := .chase
                                       target := some pid
                                       lastTargetPosition := some pt.position } },
         player)) ∧
    (ai.aggroRange < s (Vec3.normSq (Vec3.sub t.position pt.position)) →
      ∀ ticks : List (ℚ × ℚ × ℚ),
        MonsterAISystem.runMonsterSteps s at2 pid ticks (m, player) = (m, player)) := by
  constructor
  · intro hnear
    unfold MonsterAISystem.monsterStep
    rw [hpt, hai, ht, hh, hf]
    dsimp only
    rw [if_neg (not_le.mpr halive)]
    rw [if_neg (not_not_intro hhost)]
    rcases hstate with h1 | h1 <;> rw [h1] <;> dsimp only <;>
      rw [if_pos hnear]
  · intro hfar
    have hstep : ∀ now' dt' rand',
        MonsterAISystem.monsterStep s at2 now' dt' rand' pid m player = (m, player) := by
      intro now' dt' rand'
      unfold MonsterAISystem.monsterStep
      rw [hpt, hai, ht, hh, hf]
      dsimp only
      rw [if_neg (not_le.mpr halive)]
      rw [if_neg (not_not_intro hhost)]
      rcases hstate with h1 | h1 <;> rw [h1] <;> dsimp only <;>
        rw [if_neg (not_le.mpr hfar)]
    intro ticks
    induction ticks with
    | nil => rfl
    | cons tk tl ih =>
      unfold MonsterAISystem.runMonsterSteps at ih ⊢
      rw [List.foldl_cons, hstep]
      exact ih

/-- C7 witness: aggroRange 5, player at distance 4 on the x axis — one
update takes the monster from idle to chase targeting the player. -/
theorem monster_idle_aggro_range_witness :
    IsSqrtOn (fun q => if q = 16 then 4 else 0)
      (Vec3.normSq (Vec3.sub (⟨4, 0, 0⟩ : Vec3) ⟨0, 0, 0⟩)) ∧
    (0 : ℚ) < 30 ∧
    (["player"].contains "player" = true) ∧
    ((fun q => if q = 16 then 4 else (0:ℚ))
        (Vec3.normSq (Vec3.sub
          ((createTransformComponent ⟨4, 0, 0⟩).position)
          ((createTransformComponent ⟨0, 0, 0⟩).position))) ≤ 5 →
      MonsterAISystem.monsterStep (fun q => if q = 16 then 4 else 0)
        (fun _ _ => 0) 0 (1/60) 0 "player_entity"
        { Entity.blank "m" with
            ai := some { state := .idle, target := none, lastTargetPosition := none
                         aggroRange := 5, attackCooldown := 1, lastAttackTime := 0 }
            transform := some (createTransformComponent ⟨4, 0, 0⟩)
            health := some { current := 30, maximum := 30, regeneration := 1 }
            faction := some { faction := "enemy", hostile := ["player"] } }
        { Entity.blank "player_entity" with
            transform := some (createTransformComponent ⟨0, 0, 0⟩) } =
        ({ { Entity.blank "m" with
               ai := some { state := .idle, target := none, lastTargetPosition := none
                            aggroRange := 5, attackCooldown := 1, lastAttackTime := 0 }
               transform := some (createTransformComponent ⟨4, 0, 0⟩)
               health := some { current := 30, maximum := 30, regeneration := 1 }
               faction := some { faction := "enemy", hostile := ["player"] } } with
             ai := some { state := .chase, target := some "player_entity"
                          lastTargetPosition := some ((createTransformComponent ⟨0, 0, 0⟩).position)
                          aggroRange := 5, attackCooldown := 1, lastAttackTime := 0 } },
         { Entity.blank "player_entity" with
             transform := some (createTransformComponent ⟨0, 0, 0⟩) })) :=
  ⟨by refine ⟨?_, ?_⟩ <;> norm_num [Vec3.sub, Vec3.normSq],
   by norm_num, rfl,
   (monster_idle_aggro_range (fun q => if q = 16 then 4 else 0) (fun _ _ => 0)
     0 (1/60) 0 "player_entity"
     { Entity.blank "m" with
         ai := some { state := .idle, target := none, lastTargetPosition := none
                      aggroRange := 5, attackCooldown := 1, lastAttackTime := 0 }
         transform := some (createTransformComponent ⟨4, 0, 0⟩)
         health := some { current := 30, maximum := 30, regeneration := 1 }
         faction := some { faction := "enemy", hostile := ["player"] } }
     { Entity.blank "player_entity" with
         transform := some (createTransformComponent ⟨0, 0, 0⟩) }
     { state := .idle, target := none, lastTargetPosition := none
       aggroRange := 5, attackCooldown := 1, lastAttackTime := 0 }
     (createTransformComponent ⟨4, 0, 0⟩)
     { current := 30, maximum := 30, regeneration := 1 }
     { faction := "enemy", hostile := ["player"] }
     (createTransformComponent ⟨0, 0, 0⟩)
     rfl rfl rfl rfl rfl (by norm_num) rfl (Or.inl rfl)
     (by refine ⟨?_, ?_⟩ <;>
       norm_num [Vec3.sub, Vec3.normSq, createTransformComponent])).1⟩

/-- C4: a monster whose health is ≤ 0 has its AI state set to dead with no
other effect this tick (no movement, no attack, the player untouched); and
a monster already in the dead state is left completely unchanged — as is
the player — by any number of further updates. -/
theorem monster_dead_is_terminal (s : ℚ → ℚ) (at2 : ℚ → ℚ → ℚ)
    (now dt rand : ℚ) (pid : String) (m player : Entity)
    (ai : AIComponent) (t : TransformComponent) (h : HealthComponent)
    (f : FactionComponent) (pt : TransformComponent)
    (hai : m.ai = some ai) (ht : m.transform = some t)
    (hh : m.health = some h) (hf : m.faction = some f)
    (hpt : player.transform = some pt) :
    (h.current ≤ 0 →
      MonsterAISystem.monsterStep s at2 now dt rand pid m player =
        ({ m with ai := some { ai with state := .dead } }, player)) ∧
    (ai.state = .dead →
      ∀ ticks : List (ℚ × ℚ × ℚ),
        MonsterAISystem.runMonsterSteps s at2 pid ticks (m, player) = (m, player)) := by
  constructor
  · intro hdead
    unfold MonsterAISystem.monsterStep
    rw [hpt, hai, ht, hh, hf]
    dsimp only
    rw [if_pos hdead]
  · intro hstate
    obtain ⟨st, tg, ltp, ar, ac, lat⟩ := ai
    simp only at hstate
    subst hstate
    obtain ⟨mid, mtr, mhe, mcs, mfa, mai, mmo, mpr, msp⟩ := m
    simp only at hai ht hh hf
    subst hai
    subst ht
    subst hh
    subst hf
    have hstep : ∀ now' dt' rand',
        MonsterAISystem.monsterStep s at2 now' dt' rand' pid
          ⟨mid, some t, some h, mcs, some f,
           some ⟨AIState.dead, tg, ltp, ar, ac, lat⟩, mmo, mpr, msp⟩ player =
        (⟨mid, some t, some h, mcs, some f,
          some ⟨AIState.dead, tg, ltp, ar, ac, lat⟩, mmo, mpr, msp⟩, player) := by
      intro now' dt' rand'
      unfold MonsterAISystem.monsterStep
      rw [hpt]
      dsimp only
      by_cases hdead : h.current ≤ 0
      · rw [if_pos hdead]
      · rw [if_neg hdead]
        by_cases hhost : (f.hostile.contains "player" = true)
        · rw [if_neg (not_not_intro hhost)]
        · rw [if_pos hhost]
    intro ticks
    induction ticks with
    | nil => rfl
    | cons tk tl ih =>
      unfold MonsterAISystem.runMonsterSteps at ih ⊢
      rw [List.foldl_cons, hstep]
      exact ih

/-- C4 witness: a monster at 0 health is flipped to the dead state and
nothing else happens. -/
theorem monster_dead_is_terminal_witness :
    ((0 : ℚ) ≤ 0) ∧
    MonsterAISystem.monsterStep (fun _ => 0) (fun _ _ => 0) 0 (1/60) 0
      "player_entity"
      { Entity.blank "m" with
          ai := some { state := .chase, target := some "player_entity"
                       lastTargetPosition := none
                       aggroRange := 5, attackCooldown := 1, lastAttackTime := 0 }
          transform := some (createTransformComponent ⟨4, 0, 0⟩)
          health := some { current := 0, maximum := 30, regeneration := 1 }
          faction := some { faction := "enemy", hostile := ["player"] } }
      { Entity.blank "player_entity" with
          transform := some (createTransformComponent ⟨0, 0, 0⟩) } =
      ({ { Entity.blank "m" with
             ai := some { state := .chase, target := some "player_entity"
                          lastTargetPosition := none
                          aggroRange := 5, attackCooldown := 1, lastAttackTime := 0 }
             transform := some (createTransformComponent ⟨4, 0, 0⟩)
             health := some { current := 0, maximum := 30, regeneration := 1 }
             faction := some { faction := "enemy", hostile := ["player"] } } with
           ai := some { state := .dead, target := some "player_entity"
                        lastTargetPosition := none
                        aggroRange := 5, attackCooldown := 1, lastAttackTime := 0 } },
       { Entity.blank "player_entity" with
           transform := some (createTransformComponent ⟨0, 0, 0⟩) }) :=
  ⟨le_refl 0,
   (monster_dead_is_terminal (fun _ => 0) (fun _ _ => 0) 0 (1/60) 0
     "player_entity"
     { Entity.blank "m" with
         ai := some { state := .chase, target := some "player_entity"
                      lastTargetPosition := none
                      aggroRange := 5, attackCooldown := 1, lastAttackTime := 0 }
         transform := some (createTransformComponent ⟨4, 0, 0⟩)
         health := some { current := 0, maximum := 30, regeneration := 1 }
         faction := some { faction := "enemy", hostile := ["player"] } }
     { Entity.blank "player_entity" with
         transform := some (createTransformComponent ⟨0, 0, 0⟩) }
     { state := .chase, target := some "player_entity", lastTargetPosition := none
       aggroRange := 5, attackCooldown := 1, lastAttackTime := 0 }
     (createTransformComponent ⟨4, 0, 0⟩)
     { current := 0, maximum := 30, regeneration := 1 }
     { faction := "enemy", hostile := ["player"] }
     (createTransformComponent ⟨0, 0, 0⟩)
     rfl rfl rfl rfl rfl).1 (le_refl 0)⟩

theorem Entity.destroy_id (e : Entity) : (Entity.destroy e).id = e.id := rfl

theorem ProjectileSystem.movedProjectile_id (s : ℚ → ℚ) (dt : ℚ) (p : Entity) :
    (ProjectileSystem.movedProjectile s dt p).id = p.id := by
  obtain ⟨pid, tr, he, cs, fa, ai, mo, pr, sp⟩ := p
  cases pr <;> cases tr <;> rfl

theorem Entity.destroy_moved (s : ℚ → ℚ) (dt : ℚ) (p : Entity) :
    Entity.destroy (ProjectileSystem.movedProjectile s dt p) = Entity.destroy p := by
  unfold Entity.destroy
  rw [ProjectileSystem.movedProjectile_id]

theorem replaceById_twice (i : String) (a b : Entity) (ha : a.id = i)
    (es : List Entity) :
    replaceById i b (replaceById i a es) = replaceById i b es := by
  induction es with
  | nil => rfl
  | cons e tl ih =>
    unfold replaceById at ih ⊢
    simp only [List.map_cons, List.cons.injEq]
    refine ⟨?_, ih⟩
    by_cases hc : e.id = i
    · simp [hc, ha]
    · simp [hc]

/-- C6: a projectile whose move finds no valid hostile target within the
hit radius this tick self-destroys — its entry in the entity list becomes
the fragment-less `Entity.destroy p` — as soon as its new position is
within 0.5 of the target position or its accumulated travel distance
reaches `maxRange`. -/
theorem projectile_expiry_self_destroys (s : ℚ → ℚ) (dt : ℚ) (p : Entity)
    (es : List Entity) (pc : ProjectileComponent) (t : TransformComponent)
    (hp : p.projectile = some pc) (ht : p.transform = some t)
    (hnohit : ProjectileSystem.checkCollisions s
      (ProjectileSystem.movedProjectile s dt p)
      (replaceById p.id (ProjectileSystem.movedProjectile s dt p) es) = none)
    (hexp : (IsSqrtOn s (Vec3.normSq (Vec3.sub
               (Vec3.add t.position (Vec3.scale (pc.speed * dt)
                 (Vec3.normalize s (Vec3.sub pc.targetPosition t.position))))
               pc.targetPosition)) ∧
             s (Vec3.normSq (Vec3.sub
               (Vec3.add t.position (Vec3.scale (pc.speed * dt)
                 (Vec3.normalize s (Vec3.sub pc.targetPosition t.position))))
               pc.targetPosition)) < 1/2) ∨
            pc.maxRange ≤ pc.travelDistance + pc.speed * dt) :
    ProjectileSystem.updateProjectile s dt p es =
      replaceById p.id (Entity.destroy p) es ∧
    (Entity.destroy p).projectile = none ∧
    (Entity.destroy p).transform = none := by
  refine ⟨?_, rfl, rfl⟩
  have hmoved : ProjectileSystem.movedProjectile s dt p =
      { p with
          transform := some (t.withPosition (Vec3.add t.position
            (Vec3.scale (pc.speed * dt)
              (Vec3.normalize s (Vec3.sub pc.targetPosition t.position)))))
          projectile := some { pc with travelDistance := pc.travelDistance + pc.speed * dt } } := by
    unfold ProjectileSystem.movedProjectile TransformComponent.withPosition
    rw [hp, ht]
  unfold ProjectileSystem.updateProjectile
  rw [hp, ht]
  dsimp only
  rw [hnohit]
  rw [hmoved]
  dsimp only
  rw [if_pos ?_]
  · rw [← hmoved, Entity.destroy_moved]
    exact replaceById_twice p.id (ProjectileSystem.movedProjectile s dt p)
      (Entity.destroy p) (ProjectileSystem.movedProjectile_id s dt p) es
  · rcases hexp with ⟨_, h1⟩ | h2
    · exact Or.inl h1
    · exact Or.inr h2

/-- C6 witness: a projectile with maxRange 15 and speed 8 that has already
travelled 14 units and hits nothing reaches travel 16 ≥ 15 on a quarter
second tick and self-destroys. -/
theorem projectile_expiry_self_destroys_witness :
    (ProjectileSystem.checkCollisions (fun _ => 0)
      (ProjectileSystem.movedProjectile (fun _ => 0) (1/4)
        { Entity.blank "proj" with
            transform := some (createTransformComponent ⟨0, 0, 0⟩)
            projectile := some { damage := 25, speed := 8, maxRange := 15
                                 travelDistance := 14, casterFaction := "player"
                                 targetPosition := ⟨20, 0, 0⟩
                                 onHitEffect := .noneFx, effectRadius := 0 } })
      (replaceById "proj"
        (ProjectileSystem.movedProjectile (fun _ => 0) (1/4)
          { Entity.blank "proj" with
              transform := some (createTransformComponent ⟨0, 0, 0⟩)
              projectile := some { damage := 25, speed := 8, maxRange := 15
                                   travelDistance := 14, casterFaction := "player"
                                   targetPosition := ⟨20, 0, 0⟩
                                   onHitEffect := .noneFx, effectRadius := 0 } })
        [{ Entity.blank "proj" with
             transform := some (createTransformComponent ⟨0, 0, 0⟩)
             projectile := some { damage := 25, speed := 8, maxRange := 15
                                  travelDistance := 14, casterFaction := "player"
                                  targetPosition := ⟨20, 0, 0⟩
                                  onHitEffect := .noneFx, effectRadius := 0 } }]) = none) ∧
    ((15 : ℚ) ≤ 14 + 8 * (1/4)) ∧
    ProjectileSystem.updateProjectile (fun _ => 0) (1/4)
      { Entity.blank "proj" with
          transform := some (createTransformComponent ⟨0, 0, 0⟩)
          projectile := some { damage := 25, speed := 8, maxRange := 15
                               travelDistance := 14, casterFaction := "player"
                               targetPosition := ⟨20, 0, 0⟩
                               onHitEffect := .noneFx, effectRadius := 0 } }
      [{ Entity.blank "proj" with
           transform := some (createTransformComponent ⟨0, 0, 0⟩)
           projectile := some { damage := 25, speed := 8, maxRange := 15
                                travelDistance := 14, casterFaction := "player"
                                targetPosition := ⟨20, 0, 0⟩
                                onHitEffect := .noneFx, effectRadius := 0 } }] =
      replaceById "proj"
        (Entity.destroy
          { Entity.blank "proj" with
              transform := some (createTransformComponent ⟨0, 0, 0⟩)
              projectile := some { damage := 25, speed := 8, maxRange := 15
                                   travelDistance := 14, casterFaction := "player"
                                   targetPosition := ⟨20, 0, 0⟩
                                   onHitEffect := .noneFx, effectRadius := 0 } })
        [{ Entity.blank "proj" with
             transform := some (createTransformComponent ⟨0, 0, 0⟩)
             projectile := some { damage := 25, speed := 8, maxRange := 15
                                  travelDistance := 14, casterFaction := "player"
                                  targetPosition := ⟨20, 0, 0⟩
                                  onHitEffect := .noneFx, effectRadius := 0 } }] :=
  ⟨rfl, by norm_num,
   (projectile_expiry_self_destroys (fun _ => 0) (1/4)
     { Entity.blank "proj" with
         transform := some (createTransformComponent ⟨0, 0, 0⟩)
         projectile := some { damage := 25, speed := 8, maxRange := 15
                              travelDistance := 14, casterFaction := "player"
                              targetPosition := ⟨20, 0, 0⟩
                              onHitEffect := .noneFx, effectRadius := 0 } }
     [{ Entity.blank "proj" with
          transform := some (createTransformComponent ⟨0, 0, 0⟩)
          projectile := some { damage := 25, speed := 8, maxRange := 15
                               travelDistance := 14, casterFaction := "player"
                               targetPosition := ⟨20, 0, 0⟩
                               onHitEffect := .noneFx, effectRadius := 0 } }]
     { damage := 25, speed := 8, maxRange := 15, travelDistance := 14
       casterFaction := "player", targetPosition := ⟨20, 0, 0⟩
       onHitEffect := .noneFx, effectRadius := 0 }
     (createTransformComponent ⟨0, 0, 0⟩)
     rfl rfl rfl (Or.inr (by norm_num))).1⟩

theorem List.map_id_of_pointwise (f : Entity → Entity)
    (hf : ∀ e, (f e).id = e.id) (es : List Entity) :
    (es.map f).map Entity.id = es.map Entity.id := by
  induction es with
  | nil => rfl
  | cons e tl ih =>
    simp only [List.map_cons, List.cons.injEq]
    exact ⟨hf e, ih⟩

theorem map_id_replaceById (i : String) (v : Entity) (es : List Entity)
    (hv : v.id = i) :
    (replaceById i v es).map Entity.id = es.map Entity.id := by
  unfold replaceById
  apply List.map_id_of_pointwise
  intro e
  by_cases hc : e.id = i
  · simp [hc, hv]
  · simp [hc]

theorem ProjectileSystem.explodeEntity_id (s : ℚ → ℚ) (position : Vec3)
    (pc : ProjectileComponent) (e : Entity) :
    (ProjectileSystem.explodeEntity s position pc e).id = e.id := by
  unfold ProjectileSystem.explodeEntity
  obtain ⟨eid, tr, he, cs, fa, ai, mo, pr, sp⟩ := e
  cases tr <;> cases he <;> cases fa <;> dsimp only <;> try rfl
  split_ifs <;> rfl

theorem ProjectileSystem.expireSpellEffect_id (now : ℚ) (e : Entity) :
    (ProjectileSystem.expireSpellEffect now e).id = e.id := by
  unfold ProjectileSystem.expireSpellEffect
  obtain ⟨eid, tr, he, cs, fa, ai, mo, pr, sp⟩ := e
  cases sp <;> dsimp only <;> try rfl
  split_ifs <;> rfl

theorem ProjectileSystem.handleProjectileHit_map_id (s : ℚ → ℚ)
    (p target : Entity) (es : List Entity) :
    (ProjectileSystem.handleProjectileHit s p target es).map Entity.id =
      es.map Entity.id := by
  unfold ProjectileSystem.handleProjectileHit ProjectileSystem.handleExplosion
  cases p.projectile <;> cases p.transform <;> cases target.health <;>
    dsimp only <;> try rfl
  rename_i pc pt th
  split_ifs <;>
    repeat' first
      | rfl
      | rw [map_id_replaceById]
      | rw [List.map_id_of_pointwise _ (ProjectileSystem.explodeEntity_id s pt.position pc)]

theorem ProjectileSystem.updateProjectile_map_id (s : ℚ → ℚ) (dt : ℚ)
    (p : Entity) (es : List Entity) :
    (ProjectileSystem.updateProjectile s dt p es).map Entity.id =
      es.map Entity.id := by
  unfold ProjectileSystem.updateProjectile
  cases p.projectile <;> cases p.transform <;> dsimp only <;> try rfl
  have hrepl : ∀ v : Entity, v.id = p.id →
      ∀ es' : List Entity,
        (replaceById p.id v es').map Entity.id = es'.map Entity.id :=
    fun v hv es' => map_id_replaceById p.id v es' hv
  have hbase := hrepl (ProjectileSystem.movedProjectile s dt p)
    (ProjectileSystem.movedProjectile_id s dt p) es
  cases hcol : ProjectileSystem.checkCollisions s
      (ProjectileSystem.movedProjectile s dt p)
      (replaceById p.id (ProjectileSystem.movedProjectile s dt p) es) with
  | some target =>
    rw [ProjectileSystem.handleProjectileHit_map_id, hbase]
  | none =>
    cases (ProjectileSystem.movedProjectile s dt p).projectile <;>
      cases (ProjectileSystem.movedProjectile s dt p).transform <;>
      dsimp only <;> try exact hbase
    split_ifs
    · rw [hrepl (Entity.destroy (ProjectileSystem.movedProjectile s dt p))
        (by rw [Entity.destroy_id, ProjectileSystem.movedProjectile_id]), hbase]
    · exact hbase

theorem ProjectileSystem.update_map_id (s : ℚ → ℚ) (dt now : ℚ)
    (es : List Entity) :
    (ProjectileSystem.update s dt now es).map Entity.id = es.map Entity.id := by
  unfold ProjectileSystem.update
  rw [List.map_id_of_pointwise _ (ProjectileSystem.expireSpellEffect_id now)]
  generalize (es.filter fun e => e.projectile.isSome && e.transform.isSome).map
    Entity.id = pids
  induction pids generalizing es with
  | nil => rfl
  | cons pid tl ih =>
    rw [List.foldl_cons]
    cases hfind : es.find? (fun e => e.id = pid) with
    | none => rw [ih]
    | some p =>
      rw [ih, ProjectileSystem.updateProjectile_map_id]

theorem find_isSome_of_map_id (i : String) :
    ∀ es es' : List Entity, es.map Entity.id = es'.map Entity.id →
      (es.find? (fun e => e.id = i)).isSome =
        (es'.find? (fun e => e.id = i)).isSome := by
  intro es
  induction es with
  | nil =>
    intro es' h
    cases es' with
    | nil => rfl
    | cons a tl => exact absurd h (by simp)
  | cons e tl ih =>
    intro es' h
    cases es' with
    | nil => exact absurd h (by simp)
    | cons e' tl' =>
      simp only [List.map_cons, List.cons.injEq] at h
      obtain ⟨hid, htl⟩ := h
      by_cases hc : e'.id = i
      · have hce : e.id = i := by rw [hid]; exact hc
        rw [List.find?_cons_of_pos _ (by simp [hce]),
          List.find?_cons_of_pos _ (by simp [hc])]
        rfl
      · have hce : ¬ e.id = i := by rw [hid]; exact hc
        rw [List.find?_cons_of_neg _ (by simp [hce]),
          List.find?_cons_of_neg _ (by simp [hc])]
        exact ih tl' htl

/-- C9: one projectile-system tick never removes an entity from the world
index — a projectile or spell-effect that "self-destroys" only has its
fragment map cleared (`Entity.destroy` keeps the id and drops every
fragment), so `getAllEntities` keeps exactly the same ids and `getEntity`
still answers for every previously present id. -/
theorem destroy_keeps_entity_indexed (s : ℚ → ℚ) (dt now : ℚ) (w : ECSWorld) :
    ((ProjectileSystem.updateWorld s dt now w).getAllEntities).map Entity.id =
      (w.getAllEntities).map Entity.id ∧
    (∀ i : String, ((ProjectileSystem.updateWorld s dt now w).getEntity i).isSome =
      (w.getEntity i).isSome) ∧
    (∀ e : Entity, (Entity.destroy e).id = e.id ∧
      (Entity.destroy e).transform = none ∧ (Entity.destroy e).health = none ∧
      (Entity.destroy e).combatStats = none ∧ (Entity.destroy e).faction = none ∧
      (Entity.destroy e).ai = none ∧ (Entity.destroy e).movement = none ∧
      (Entity.destroy e).projectile = none ∧ (Entity.destroy e).spellEffect = none) := by
  refine ⟨ProjectileSystem.update_map_id s dt now w.entities, ?_, ?_⟩
  · intro i
    exact find_isSome_of_map_id i _ _
      (ProjectileSystem.update_map_id s dt now w.entities)
  · intro e
    exact ⟨rfl, rfl, rfl, rfl, rfl, rfl, rfl, rfl, rfl⟩
